import Mathlib

/-!
Shallow embedding of the GenDJ API warp lifecycle and billing reconciliation
engine.  Timestamps are modelled as integer milliseconds (JS `Date.getTime()`),
JavaScript number arithmetic as exact rational arithmetic, database job status
strings as `Option String`, and every remote RunPod call as an explicit
`Except`-valued input.  Persistence effects are recorded as a trace of atomic
write blocks: each standalone `update` is a singleton block, and every
`$transaction` contributes one block holding all the writes it performs.
-/

namespace GendjApi

/-- One Warp row, restricted to the fields read or written by the lifecycle
engine.  The serverless fields mirror `model Warp` in `prisma/schema.prisma`;
the legacy pod fields (`podStatus`, `podReadyAt`, `podEndedAt`) are kept
because the heartbeat route still bills through them. -/
structure Warp where
  jobId : Option String
  jobStatus : Option String
  jobStartedAt : Option Int
  jobEndedAt : Option Int
  workerId : Option String
  runpodConfirmedTerminal : Bool
  createdById : String
  updatedAt : Int
  podStatus : Option String := none
  podReadyAt : Option Int := none
  podEndedAt : Option Int := none
  deriving Repr, DecidableEq

/-- The terminal job statuses, as listed in `cancelWarpAndUpdateUserTimeBalance`
and `syncWarpJobStatus`. -/
def terminalStates : List String := ["COMPLETED", "FAILED", "CANCELLED", "ENDED"]

/-- JavaScript `terminalStates.includes(s)` where `s` may be `null`. -/
def isTerminalOpt (s : Option String) : Bool :=
  match s with
  | some st => terminalStates.contains st
  | none => false

/-- The serverless balance estimator `calculateUserTimeBalanceAfterWarp`
(the generation that bills from `jobStartedAt` / `jobEndedAt`): if the job has
not started, the stored balance is returned unchanged; otherwise the elapsed
duration (to `jobEndedAt` if set, else to `now`) is clamped at zero and
subtracted. -/
def calculateUserTimeBalanceAfterWarp (timeBalance : Int)
    (jobStartedAt jobEndedAt : Option Int) (now : Int) : ℚ :=
  match jobStartedAt with
  | none => (timeBalance : ℚ)
  | some startMs =>
    let warpDurationSeconds : ℚ :=
      match jobEndedAt with
      | some endMs => ((endMs - startMs : Int) : ℚ) / 1000
      | none => ((now - startMs : Int) : ℚ) / 1000
    (timeBalance : ℚ) - max 0 warpDurationSeconds

/-- The balance finalizer `updateUserTimeBalanceForEndedWarp`: requires both
`jobStartedAt` and `jobEndedAt` (throws otherwise), computes the clamped
duration in seconds, subtracts it from the stored balance and persists the
ceiling of the result. -/
def updateUserTimeBalanceForEndedWarp (timeBalance : Int)
    (jobStartedAt jobEndedAt : Option Int) : Except String Int :=
  match jobStartedAt, jobEndedAt with
  | some startMs, some endMs =>
    let warpDurationSeconds : ℚ := max 0 (((endMs - startMs : Int) : ℚ) / 1000)
    let finalTimeBalance : ℚ := (timeBalance : ℚ) - warpDurationSeconds
    .ok (Int.ceil finalTimeBalance)
  | _, _ =>
    .error "Warp object with jobStartedAt and jobEndedAt is required to finalize balance."

/-- The legacy pod-based estimator `calculateUserTimeBalanceAfterWarp` from
`utils/warpUtils.js` (used by the heartbeat route): bills from `podReadyAt`
to `podEndedAt` (or `now`), with no clamping of negative durations. -/
def calculateUserTimeBalanceAfterWarpLegacy (timeBalance : Int)
    (podReadyAt podEndedAt : Option Int) (now : Int) : ℚ :=
  match podReadyAt with
  | none => (timeBalance : ℚ)
  | some readyMs =>
    match podEndedAt with
    | none => (timeBalance : ℚ) - ((now - readyMs : Int) : ℚ) / 1000
    | some endedMs => (timeBalance : ℚ) - ((endedMs - readyMs : Int) : ℚ) / 1000

/-- One persisted database write: either a Warp row update or a User balance
update (the balance-finalizing write). -/
inductive DbWrite where
  | warpWrite (w : Warp)
  | userWrite (timeBalance : Int)
  deriving Repr, DecidableEq

/-- One atomic persistence unit: a standalone update is a singleton block, a
Prisma transaction is one block with all its writes. -/
abbrev Txn := List DbWrite

/-- Whether a write is a User balance write. -/
def DbWrite.isUserWrite : DbWrite → Bool
  | .userWrite _ => true
  | .warpWrite _ => false

/-- Number of balance-finalizing writes in a trace. -/
def finalizationCount (trace : List Txn) : Nat :=
  (trace.flatten.filter DbWrite.isUserWrite).length

/-- Outcome of one invocation of `cancelWarpAndUpdateUserTimeBalance`:
the value returned (or the error thrown), the resulting Warp row and user
balance, the persistence trace, and whether the remote cancel was requested. -/
structure CancelOutcome where
  result : Except String (Warp × Int)
  warp : Warp
  balance : Int
  trace : List Txn
  remoteCancelCalled : Bool
  deriving Repr

/-- The engine operation `cancelWarpAndUpdateUserTimeBalance`.  Inputs: the
current Warp row and user balance, the outcome of the remote
`cancelRunpodServerlessJob` call (an explicit parameter, since the remote
client is external), and the current time.  Mirrors the source branch by
branch: no `jobId` marks the warp FAILED with no balance change; an already
terminal status is an idempotent no-op; a remote failure is re-thrown with no
local write; on remote success one transaction sets CANCELLED plus the end
time and, only if `jobStartedAt` was set, finalizes the balance. -/
def cancelWarpAndUpdateUserTimeBalance (warp : Warp) (timeBalance : Int)
    (remoteCancel : Except String Unit) (now : Int) : CancelOutcome :=
  match warp.jobId with
  | none =>
    let failedWarp := { warp with
      jobStatus := some "FAILED", jobEndedAt := some now, updatedAt := now }
    { result := .ok (failedWarp, timeBalance), warp := failedWarp,
      balance := timeBalance, trace := [[.warpWrite failedWarp]],
      remoteCancelCalled := false }
  | some jobId =>
    if isTerminalOpt warp.jobStatus then
      { result := .ok (warp, timeBalance), warp := warp, balance := timeBalance,
        trace := [], remoteCancelCalled := false }
    else
      match remoteCancel with
      | .error msg =>
        { result := .error
            ("Failed to cancel Runpod job " ++ jobId ++ " via API: " ++ msg),
          warp := warp, balance := timeBalance, trace := [],
          remoteCancelCalled := true }
      | .ok _ =>
        let cancelledWarp := { warp with
          jobStatus := some "CANCELLED", jobEndedAt := some now, updatedAt := now }
        match warp.jobStartedAt with
        | some startMs =>
          match updateUserTimeBalanceForEndedWarp timeBalance (some startMs) (some now) with
          | .ok newBalance =>
            { result := .ok (cancelledWarp, newBalance), warp := cancelledWarp,
              balance := newBalance,
              trace := [[.warpWrite cancelledWarp, .userWrite newBalance]],
              remoteCancelCalled := true }
          | .error msg =>
            { result := .error msg, warp := warp, balance := timeBalance,
              trace := [], remoteCancelCalled := true }
        | none =>
          { result := .ok (cancelledWarp, timeBalance), warp := cancelledWarp,
            balance := timeBalance, trace := [[.warpWrite cancelledWarp]],
            remoteCancelCalled := true }

/-- Failure modes of the remote `getRunpodServerlessJobStatus` call that the
sync code distinguishes: a 404 whose message contains the not-found markers,
or any other error. -/
inductive RemoteErr where
  | notFound
  | other (msg : String)
  deriving Repr, DecidableEq

/-- Whether the remote error is the not-found case. -/
def RemoteErr.isNotFound : RemoteErr → Bool
  | .notFound => true
  | .other _ => false

/-- Successful payload of `getRunpodServerlessJobStatus`, with `delayTime`
and `executionTime` in seconds as the sync code assumes. -/
structure JobStatusResult where
  status : String
  workerId : Option String
  delayTime : Option Int
  executionTime : Option Int
  deriving Repr, DecidableEq

/-- Outcome of one invocation of `syncWarpJobStatus`. -/
structure SyncOutcome where
  result : Option Warp
  warp : Warp
  balance : Int
  trace : List Txn
  remoteCalled : Bool
  deriving Repr

/-- The update diff computed by the success path of `syncWarpJobStatus`
before the database write: whether the remote status differs from the stored
one, whether any field changed (so a write is needed), and the row as it will
be after applying the accumulated `updateData`. -/
structure SyncDiff where
  statusChanged : Bool
  needsUpdate : Bool
  finalWarp : Warp
  deriving Repr

/-- The `updateData` accumulation of `syncWarpJobStatus`, step by step:
status change (confirming when the new status is terminal), worker-id change,
derivable `jobStartedAt` (only when newly IN_PROGRESS, estimated as
`now - delayTime`), derivable `jobEndedAt` (only when newly terminal,
estimated as `start + executionTime`, falling back to `now` when that would
precede the start), the late confirm when the end time cannot be derived, and
the final forced confirm when the status is terminal, unconfirmed, and
nothing else changed. -/
def computeSyncDiff (warp : Warp) (r : JobStatusResult) (now : Int) : SyncDiff :=
  let statusChanged : Bool := some r.status != warp.jobStatus
  let updStatus : Option String :=
    if statusChanged then some r.status else none
  let updConfirmed1 : Bool :=
    statusChanged && terminalStates.contains r.status
  let newWorkerId : Option String :=
    match r.workerId with
    | some w => some w
    | none => warp.workerId
  let workerChanged : Bool := newWorkerId != warp.workerId
  let estimatedStartedAt : Option Int :=
    if r.status == "IN_PROGRESS" && warp.jobStartedAt.isNone then
      some (now - (r.delayTime.getD 0) * 1000)
    else none
  let needs3 : Bool :=
    statusChanged || workerChanged || estimatedStartedAt.isSome
  let endBlockActive : Bool :=
    terminalStates.contains r.status && warp.jobEndedAt.isNone
  let startForEnd : Option Int :=
    match estimatedStartedAt with
    | some s => some s
    | none => warp.jobStartedAt
  let updEnded : Option Int :=
    if endBlockActive then
      match startForEnd with
      | some s =>
        let e0 := s + (r.executionTime.getD 0) * 1000
        some (if e0 < s then now else e0)
      | none => none
    else none
  let lateConfirm : Bool :=
    endBlockActive && startForEnd.isNone &&
      terminalStates.contains r.status && statusChanged && !updConfirmed1
  let updConfirmed2 : Bool :=
    updConfirmed1 || (endBlockActive && startForEnd.isSome) || lateConfirm
  let needs4 : Bool := needs3 || updEnded.isSome || lateConfirm
  let forceConfirm : Bool :=
    terminalStates.contains r.status && !warp.runpodConfirmedTerminal &&
      !needs4
  let updConfirmed : Bool := updConfirmed2 || forceConfirm
  let updStatusF : Option String :=
    if forceConfirm && updStatus.isNone then some r.status else updStatus
  let needsUpdate : Bool := needs4 || forceConfirm
  { statusChanged := statusChanged, needsUpdate := needsUpdate,
    finalWarp := { warp with
      jobStatus :=
        match updStatusF with
        | some st => some st
        | none => warp.jobStatus,
      workerId := if workerChanged then newWorkerId else warp.workerId,
      jobStartedAt :=
        match estimatedStartedAt with
        | some s => some s
        | none => warp.jobStartedAt,
      jobEndedAt :=
        match updEnded with
        | some e => some e
        | none => warp.jobEndedAt,
      runpodConfirmedTerminal :=
        warp.runpodConfirmedTerminal || updConfirmed,
      updatedAt := now } }

/-- The database write and conditional balance finalization performed by the
success path of `syncWarpJobStatus`: write only when something changed; then
finalize exactly when the updated row is confirmed terminal with both
timestamps and the reported status differs from the stored one — the warp
write is a standalone update and the balance write runs in its own
transaction. -/
def syncApplyUpdate (warp : Warp) (timeBalance : Int) (r : JobStatusResult)
    (now : Int) : SyncOutcome :=
  let d := computeSyncDiff warp r now
  if d.needsUpdate then
    if d.finalWarp.runpodConfirmedTerminal &&
        isTerminalOpt d.finalWarp.jobStatus &&
        d.finalWarp.jobEndedAt.isSome && d.finalWarp.jobStartedAt.isSome &&
        d.statusChanged then
      match updateUserTimeBalanceForEndedWarp timeBalance
          d.finalWarp.jobStartedAt d.finalWarp.jobEndedAt with
      | .ok newBalance =>
        { result := some d.finalWarp, warp := d.finalWarp,
          balance := newBalance,
          trace := [[.warpWrite d.finalWarp], [.userWrite newBalance]],
          remoteCalled := true }
      | .error _ =>
        { result := some d.finalWarp, warp := d.finalWarp,
          balance := timeBalance, trace := [[.warpWrite d.finalWarp]],
          remoteCalled := true }
    else
      { result := some d.finalWarp, warp := d.finalWarp,
        balance := timeBalance, trace := [[.warpWrite d.finalWarp]],
        remoteCalled := true }
  else
    { result := some warp, warp := warp, balance := timeBalance,
      trace := [], remoteCalled := true }

/-- The engine operation `syncWarpJobStatus` (the generation gated on
`runpodConfirmedTerminal`).  Mirrors the source: skip when there is no job id;
skip (returning the row) when the status is terminal and already confirmed;
on a remote not-found with a locally terminal status, set the confirmed flag
and persist; on any other remote error, return null with no write; otherwise
accumulate an update diff (status change, worker change, derived start or end
timestamps, confirmed flag), write only when something changed, and finalize
the balance, in a separate transaction, exactly when the updated row is
confirmed terminal with both timestamps and the reported status differs from
the stored one. -/
def syncWarpJobStatus (warp : Warp) (timeBalance : Int)
    (remote : Except RemoteErr JobStatusResult) (now : Int) : SyncOutcome :=
  match warp.jobId with
  | none =>
    { result := none, warp := warp, balance := timeBalance, trace := [],
      remoteCalled := false }
  | some _ =>
    if isTerminalOpt warp.jobStatus && warp.runpodConfirmedTerminal then
      { result := some warp, warp := warp, balance := timeBalance, trace := [],
        remoteCalled := false }
    else
      match remote with
      | .error e =>
        if e.isNotFound && isTerminalOpt warp.jobStatus then
          let confirmedWarp := { warp with
            runpodConfirmedTerminal := true, updatedAt := now }
          { result := some confirmedWarp, warp := confirmedWarp,
            balance := timeBalance, trace := [[.warpWrite confirmedWarp]],
            remoteCalled := true }
        else
          { result := none, warp := warp, balance := timeBalance, trace := [],
            remoteCalled := true }
      | .ok r => syncApplyUpdate warp timeBalance r now

/-- Outcome of the legacy `endWarpAndUpdateUserTimeBalance` from
`utils/warpUtils.js`: ends the remote pod, then in one transaction marks the
pod ENDED with `podEndedAt = now` and persists the ceiling of the legacy
estimate. -/
structure EndWarpOutcome where
  result : Except String (Warp × Int)
  warp : Warp
  balance : Int
  trace : List Txn
  deriving Repr

/-- The legacy end-warp operation invoked by the heartbeat route when the
estimate is negative. -/
def endWarpAndUpdateUserTimeBalance (warp : Warp) (timeBalance : Int)
    (remoteEnd : Except String Unit) (now : Int) : EndWarpOutcome :=
  match remoteEnd with
  | .error msg =>
    { result := .error msg, warp := warp, balance := timeBalance, trace := [] }
  | .ok _ =>
    let endedWarp := { warp with
      podStatus := some "ENDED", podEndedAt := some now, updatedAt := now }
    let newBalance := Int.ceil (calculateUserTimeBalanceAfterWarpLegacy
      timeBalance endedWarp.podReadyAt endedWarp.podEndedAt now)
    { result := .ok (endedWarp, newBalance), warp := endedWarp,
      balance := newBalance,
      trace := [[.warpWrite endedWarp, .userWrite newBalance]] }

/-- Outcome of the heartbeat route handler. -/
structure HeartbeatOutcome where
  response : Except String ℚ
  endWarpCalled : Bool
  warp : Warp
  balance : Int
  trace : List Txn
  deriving Repr

/-- The heartbeat handler from `routes/v1/warpsRouter.js`: computes the
estimated balance; if it is strictly negative, invokes the end-warp operation
and reports the insufficient-balance error (or the end failure); otherwise
touches only the Warp's `updatedAt` and returns the estimate. -/
def heartbeat (warp : Warp) (timeBalance : Int)
    (remoteEnd : Except String Unit) (now : Int) : HeartbeatOutcome :=
  let estimatedUserTimeBalance := calculateUserTimeBalanceAfterWarpLegacy
    timeBalance warp.podReadyAt warp.podEndedAt now
  if estimatedUserTimeBalance < 0 then
    let e := endWarpAndUpdateUserTimeBalance warp timeBalance remoteEnd now
    match e.result with
    | .ok _ =>
      { response := .error "Insufficient balance to continue Warp",
        endWarpCalled := true, warp := e.warp, balance := e.balance,
        trace := e.trace }
    | .error msg =>
      { response := .error msg, endWarpCalled := true, warp := e.warp,
        balance := e.balance, trace := e.trace }
  else
    let touchedWarp := { warp with updatedAt := now }
    { response := .ok estimatedUserTimeBalance, endWarpCalled := false,
      warp := touchedWarp, balance := timeBalance,
      trace := [[.warpWrite touchedWarp]] }

/-- One engine invocation, with its external inputs (remote call outcomes and
the clock) made explicit. -/
inductive EngineOp where
  | sync (remote : Except RemoteErr JobStatusResult) (now : Int)
  | cancel (remoteCancel : Except String Unit) (now : Int)
  | heartbeat (remoteEnd : Except String Unit) (now : Int)
  deriving Repr

/-- The mutable state an engine operation can touch: one Warp row and its
owner's balance. -/
structure EngineState where
  warp : Warp
  balance : Int
  deriving Repr, DecidableEq

/-- Apply one engine operation, returning the new state and its trace. -/
def runOp (s : EngineState) : EngineOp → EngineState × List Txn
  | .sync remote now =>
    let o := syncWarpJobStatus s.warp s.balance remote now
    (⟨o.warp, o.balance⟩, o.trace)
  | .cancel rc now =>
    let o := cancelWarpAndUpdateUserTimeBalance s.warp s.balance rc now
    (⟨o.warp, o.balance⟩, o.trace)
  | .heartbeat re now =>
    let o := heartbeat s.warp s.balance re now
    (⟨o.warp, o.balance⟩, o.trace)

/-- Apply a sequence of engine operations, concatenating the traces. -/
def runOps (s : EngineState) : List EngineOp → EngineState × List Txn
  | [] => (s, [])
  | op :: ops =>
    let r1 := runOp s op
    let r2 := runOps r1.1 ops
    (r2.1, r1.2 ++ r2.2)

/-- Whether an engine op is a Sync. -/
def EngineOp.isSync : EngineOp → Bool
  | .sync _ _ => true
  | _ => false

/-- The reachability invariant: a confirmed-terminal flag implies a terminal
job status. -/
def ConfirmedImpliesTerminal (w : Warp) : Prop :=
  w.runpodConfirmedTerminal = true → isTerminalOpt w.jobStatus = true

/-- Fixture: a running serverless warp with a started job. -/
def jobRunningWarp : Warp :=
  { jobId := some "job-1", jobStatus := some "IN_PROGRESS",
    jobStartedAt := some 0, jobEndedAt := none, workerId := none,
    runpodConfirmedTerminal := false, createdById := "user-1", updatedAt := 0 }

/-- Fixture: a locally cancelled warp not yet confirmed by the remote
provider (the state Cancel leaves behind). -/
def cancelledUnconfirmedWarp : Warp :=
  { jobId := some "job-1", jobStatus := some "CANCELLED",
    jobStartedAt := some 0, jobEndedAt := some 10000, workerId := none,
    runpodConfirmedTerminal := false, createdById := "user-1", updatedAt := 0 }

/-- Fixture: a confirmed terminal warp. -/
def confirmedTerminalWarp : Warp :=
  { jobId := some "job-1", jobStatus := some "COMPLETED",
    jobStartedAt := some 0, jobEndedAt := some 10000, workerId := none,
    runpodConfirmedTerminal := true, createdById := "user-1", updatedAt := 0 }

/-- Fixture: a warp whose job creation never persisted a job id. -/
def noJobIdWarp : Warp :=
  { jobId := none, jobStatus := some "IN_QUEUE", jobStartedAt := none,
    jobEndedAt := none, workerId := none, runpodConfirmedTerminal := false,
    createdById := "user-1", updatedAt := 0 }

/-- Fixture: a legacy pod-model warp currently running, for the heartbeat
route. -/
def podRunningWarp : Warp :=
  { jobId := none, jobStatus := none, jobStartedAt := none, jobEndedAt := none,
    workerId := none, runpodConfirmedTerminal := false,
    createdById := "user-1", updatedAt := 0, podStatus := some "RUNNING",
    podReadyAt := some 0, podEndedAt := none }

/-- Ceiling of an integer minus a rational equals the integer minus the floor
of the rational: rounding the resulting balance up is the same as rounding the
deducted duration down. -/
lemma ceil_intCast_sub_eq (b : Int) (d : ℚ) :
    Int.ceil ((b : ℚ) - d) = b - Int.floor d := by
  have h1 : (b : ℚ) - d = -(d - (b : ℚ)) := by ring
  rw [h1, Int.ceil_neg, Int.floor_sub_int]
  ring

/-- Evaluation form of the finalizer on present timestamps: the persisted
balance is the stored balance minus the clamped duration rounded down. -/
lemma updateUserTimeBalanceForEndedWarp_eq (b s e : Int) :
    updateUserTimeBalanceForEndedWarp b (some s) (some e) =
      .ok (b - Int.floor (max 0 (((e - s : Int) : ℚ) / 1000))) := by
  simp only [updateUserTimeBalanceForEndedWarp]
  rw [ceil_intCast_sub_eq]

/-- Evaluation helper for concrete floors. -/
lemma floor_eval {q : ℚ} {z : Int} (h1 : (z : ℚ) ≤ q) (h2 : q < z + 1) :
    Int.floor q = z := by
  rw [Int.floor_eq_iff]
  exact ⟨h1, h2⟩

/-- Evaluation helper for concrete ceilings. -/
lemma ceil_eval {q : ℚ} {z : Int} (h1 : (z : ℚ) - 1 < q) (h2 : q ≤ z) :
    Int.ceil q = z := by
  rw [Int.ceil_eq_iff]
  exact ⟨h1, h2⟩

/-- Claim C7: the balance estimator returns the stored balance unchanged when
`jobStartedAt` is unset, and otherwise returns the stored balance minus
max(0, (jobEndedAt ?? now) - jobStartedAt) in seconds; the deducted amount is
never negative, even when the end timestamp precedes the start. -/
theorem c7_balance_estimator (b : Int) (jobEndedAt : Option Int) (now : Int) :
    calculateUserTimeBalanceAfterWarp b none jobEndedAt now = (b : ℚ) ∧
    ∀ s : Int,
      calculateUserTimeBalanceAfterWarp b (some s) jobEndedAt now =
        (b : ℚ) - max 0 (((jobEndedAt.getD now - s : Int) : ℚ) / 1000) ∧
      0 ≤ (b : ℚ) - calculateUserTimeBalanceAfterWarp b (some s) jobEndedAt now := by
  refine ⟨rfl, fun s => ?_⟩
  cases jobEndedAt with
  | none =>
    exact ⟨rfl, by
      simp only [calculateUserTimeBalanceAfterWarp, sub_sub_cancel]
      exact le_max_left _ _⟩
  | some e =>
    exact ⟨rfl, by
      simp only [calculateUserTimeBalanceAfterWarp, sub_sub_cancel]
      exact le_max_left _ _⟩

/-- Claim C2 counterexample: for a duration of 2.3 seconds on a stored balance
of 100, the code persists ceil(100 - 2.3) = 98, while the claim's formula
(stored balance minus the duration rounded up) gives 100 - 3 = 97. -/
theorem c2_finalization_rounding_counterexample :
    updateUserTimeBalanceForEndedWarp 100 (some 0) (some 2300) = .ok 98 ∧
    (100 : Int) - Int.ceil (((2300 - 0 : Int) : ℚ) / 1000) = 97 := by
  constructor
  · rw [updateUserTimeBalanceForEndedWarp_eq,
      show Int.floor (max (0 : ℚ) (((2300 - 0 : Int) : ℚ) / 1000)) = 2 by
        apply floor_eval <;> norm_num [max_def]]
    norm_num
  · rw [show Int.ceil (((2300 - 0 : Int) : ℚ) / 1000) = 3 by
      apply ceil_eval <;> norm_num]
    norm_num

/-- Claim C2 (amended): every finalization persists the ceiling of the stored
balance minus the clamped duration, which equals the stored balance minus the
billed duration rounded DOWN to the previous whole second; the deducted amount
never exceeds the true clamped duration, so the user is never overcharged by
sub-second rounding (but may be undercharged by up to one second). -/
theorem c2_finalization_rounding_amended (b s e : Int) :
    updateUserTimeBalanceForEndedWarp b (some s) (some e) =
      .ok (b - Int.floor (max 0 (((e - s : Int) : ℚ) / 1000))) ∧
    (Int.floor (max (0 : ℚ) (((e - s : Int) : ℚ) / 1000)) : ℚ) ≤
      max 0 (((e - s : Int) : ℚ) / 1000) :=
  ⟨updateUserTimeBalanceForEndedWarp_eq b s e, Int.floor_le _⟩

/-- Claim C8: Cancel on a Warp with no jobId makes no remote call, marks the
warp FAILED with `jobEndedAt = now`, and leaves the user's balance unchanged. -/
theorem c8_cancel_without_jobId (w : Warp) (b : Int) (rc : Except String Unit)
    (now : Int) (hjob : w.jobId = none) :
    (cancelWarpAndUpdateUserTimeBalance w b rc now).remoteCancelCalled = false ∧
    (cancelWarpAndUpdateUserTimeBalance w b rc now).warp =
      { w with jobStatus := some "FAILED", jobEndedAt := some now,
               updatedAt := now } ∧
    (cancelWarpAndUpdateUserTimeBalance w b rc now).balance = b ∧
    (cancelWarpAndUpdateUserTimeBalance w b rc now).result =
      .ok ((cancelWarpAndUpdateUserTimeBalance w b rc now).warp, b) ∧
    finalizationCount (cancelWarpAndUpdateUserTimeBalance w b rc now).trace = 0 := by
  simp [cancelWarpAndUpdateUserTimeBalance, hjob, finalizationCount,
    DbWrite.isUserWrite]

/-- Witness for claim C8 at a concrete no-jobId warp. -/
theorem c8_cancel_without_jobId_witness :
    (cancelWarpAndUpdateUserTimeBalance noJobIdWarp 5 (.ok ()) 99).warp =
      { noJobIdWarp with jobStatus := some "FAILED", jobEndedAt := some 99,
                         updatedAt := 99 } ∧
    (cancelWarpAndUpdateUserTimeBalance noJobIdWarp 5 (.ok ()) 99).balance = 5 :=
  ⟨(c8_cancel_without_jobId noJobIdWarp 5 (.ok ()) 99 rfl).2.1,
   (c8_cancel_without_jobId noJobIdWarp 5 (.ok ()) 99 rfl).2.2.1⟩

/-- Claim C5: Cancel on a Warp with a jobId and non-terminal status whose
remote cancel call fails propagates the failure and mutates no local state:
the warp row, the balance and the trace are untouched. -/
theorem c5_cancel_remote_failure_no_mutation (w : Warp) (b : Int)
    (msg : String) (now : Int) (hjob : w.jobId.isSome = true)
    (hactive : isTerminalOpt w.jobStatus = false) :
    (∃ e, (cancelWarpAndUpdateUserTimeBalance w b (.error msg) now).result =
      .error e) ∧
    (cancelWarpAndUpdateUserTimeBalance w b (.error msg) now).warp = w ∧
    (cancelWarpAndUpdateUserTimeBalance w b (.error msg) now).balance = b ∧
    (cancelWarpAndUpdateUserTimeBalance w b (.error msg) now).trace = [] ∧
    (cancelWarpAndUpdateUserTimeBalance w b (.error msg) now).remoteCancelCalled
      = true := by
  obtain ⟨j, hj⟩ := Option.isSome_iff_exists.mp hjob
  simp [cancelWarpAndUpdateUserTimeBalance, hj, hactive]

/-- Witness for claim C5 at a concrete running warp. -/
theorem c5_cancel_remote_failure_no_mutation_witness :
    (cancelWarpAndUpdateUserTimeBalance jobRunningWarp 100
        (.error "boom") 10000).warp = jobRunningWarp ∧
    (cancelWarpAndUpdateUserTimeBalance jobRunningWarp 100
        (.error "boom") 10000).trace = [] :=
  ⟨(c5_cancel_remote_failure_no_mutation jobRunningWarp 100 "boom" 10000
      rfl rfl).2.1,
   (c5_cancel_remote_failure_no_mutation jobRunningWarp 100 "boom" 10000
      rfl rfl).2.2.2.1⟩

/-- Claim C9 counterexample: a successful cancellation of a running warp sets
jobStatus to CANCELLED and the end timestamp, but does NOT set the
runpodConfirmedTerminal flag, contradicting the claim that every successful
cancellation sets the confirmed flag. -/
theorem c9_cancel_does_not_confirm_counterexample :
    (cancelWarpAndUpdateUserTimeBalance jobRunningWarp 100 (.ok ()) 10000).result
      = .ok ((cancelWarpAndUpdateUserTimeBalance jobRunningWarp 100
          (.ok ()) 10000).warp, 90) ∧
    (cancelWarpAndUpdateUserTimeBalance jobRunningWarp 100
        (.ok ()) 10000).warp.jobStatus = some "CANCELLED" ∧
    (cancelWarpAndUpdateUserTimeBalance jobRunningWarp 100
        (.ok ()) 10000).warp.jobEndedAt = some 10000 ∧
    (cancelWarpAndUpdateUserTimeBalance jobRunningWarp 100
        (.ok ()) 10000).warp.runpodConfirmedTerminal = false := by
  have hbal : updateUserTimeBalanceForEndedWarp 100 (some 0) (some 10000) =
      .ok 90 := by
    rw [updateUserTimeBalanceForEndedWarp_eq,
      show Int.floor (max (0 : ℚ) (((10000 - 0 : Int) : ℚ) / 1000)) = 10 by
        apply floor_eval <;> norm_num [max_def]]
    norm_num
  simp [cancelWarpAndUpdateUserTimeBalance, jobRunningWarp, hbal,
    isTerminalOpt, terminalStates]

/-- Claim C9 (amended): a successful cancellation of a non-terminal warp with
a jobId sets jobStatus to CANCELLED and the end timestamp, but leaves
runpodConfirmedTerminal unchanged; confirmation is deferred to a later Sync. -/
theorem c9_cancel_mutation_amended (w : Warp) (b : Int) (now : Int)
    (hjob : w.jobId.isSome = true)
    (hactive : isTerminalOpt w.jobStatus = false) :
    (cancelWarpAndUpdateUserTimeBalance w b (.ok ()) now).warp.jobStatus =
      some "CANCELLED" ∧
    (cancelWarpAndUpdateUserTimeBalance w b (.ok ()) now).warp.jobEndedAt =
      some now ∧
    (cancelWarpAndUpdateUserTimeBalance w b (.ok ()) now).warp.runpodConfirmedTerminal
      = w.runpodConfirmedTerminal := by
  obtain ⟨j, hj⟩ := Option.isSome_iff_exists.mp hjob
  cases hstart : w.jobStartedAt with
  | none => simp [cancelWarpAndUpdateUserTimeBalance, hj, hactive, hstart]
  | some s =>
    simp [cancelWarpAndUpdateUserTimeBalance, hj, hactive, hstart,
      updateUserTimeBalanceForEndedWarp_eq]

/-- Witness for the amended claim C9 at a concrete running warp. -/
theorem c9_cancel_mutation_amended_witness :
    (cancelWarpAndUpdateUserTimeBalance jobRunningWarp 100
        (.ok ()) 10000).warp.jobStatus = some "CANCELLED" ∧
    (cancelWarpAndUpdateUserTimeBalance jobRunningWarp 100
        (.ok ()) 10000).warp.runpodConfirmedTerminal =
      jobRunningWarp.runpodConfirmedTerminal :=
  ⟨(c9_cancel_mutation_amended jobRunningWarp 100 10000 rfl rfl).1,
   (c9_cancel_mutation_amended jobRunningWarp 100 10000 rfl rfl).2.2⟩

/-- Claim C6 counterexample: with a stored balance of 10 and exactly 10
elapsed seconds the estimate is exactly 0; the claim says an estimate of 0
triggers Cancel and an insufficient-balance failure, but the code (which tests
strictly `< 0`) performs no cancellation and returns the estimate. -/
theorem c6_heartbeat_boundary_counterexample :
    calculateUserTimeBalanceAfterWarpLegacy 10 podRunningWarp.podReadyAt
      podRunningWarp.podEndedAt 10000 = 0 ∧
    (heartbeat podRunningWarp 10 (.ok ()) 10000).endWarpCalled = false ∧
    (heartbeat podRunningWarp 10 (.ok ()) 10000).response = .ok 0 := by
  have hest : calculateUserTimeBalanceAfterWarpLegacy 10 (some 0) none 10000
      = 0 := by
    simp only [calculateUserTimeBalanceAfterWarpLegacy]
    norm_num
  refine ⟨hest, ?_, ?_⟩ <;>
    simp [heartbeat, podRunningWarp, hest]

/-- Claim C6 (amended): the heartbeat route triggers the end-warp operation
and reports the insufficient-balance failure only when the estimate is
strictly negative; when the estimate is zero or positive it touches only the
Warp's `updatedAt`, performs no balance write, and returns the estimate. -/
theorem c6_heartbeat_amended (w : Warp) (b : Int) (re : Except String Unit)
    (now : Int) :
    (calculateUserTimeBalanceAfterWarpLegacy b w.podReadyAt w.podEndedAt now < 0 →
      (heartbeat w b re now).endWarpCalled = true ∧
      (re = .ok () → (heartbeat w b re now).response =
        .error "Insufficient balance to continue Warp")) ∧
    (0 ≤ calculateUserTimeBalanceAfterWarpLegacy b w.podReadyAt w.podEndedAt now →
      (heartbeat w b re now).endWarpCalled = false ∧
      (heartbeat w b re now).response =
        .ok (calculateUserTimeBalanceAfterWarpLegacy b w.podReadyAt w.podEndedAt now) ∧
      (heartbeat w b re now).warp = { w with updatedAt := now } ∧
      (heartbeat w b re now).balance = b ∧
      finalizationCount (heartbeat w b re now).trace = 0) := by
  constructor
  · intro hneg
    cases re with
    | ok u =>
      cases u
      refine ⟨?_, fun _ => ?_⟩ <;>
        simp [heartbeat, endWarpAndUpdateUserTimeBalance, hneg]
    | error m =>
      refine ⟨?_, fun hcontra => ?_⟩
      · simp [heartbeat, endWarpAndUpdateUserTimeBalance, hneg]
      · exact absurd hcontra (by simp)
  · intro hpos
    have hnlt := not_lt.mpr hpos
    refine ⟨?_, ?_, ?_, ?_, ?_⟩ <;>
      simp [heartbeat, hnlt, finalizationCount, DbWrite.isUserWrite]

/-- Witness for the amended claim C6: a warp that has not begun billing with
a positive balance takes the no-cancel branch. -/
theorem c6_heartbeat_amended_witness :
    (heartbeat jobRunningWarp 5 (.ok ()) 42).endWarpCalled = false ∧
    (heartbeat jobRunningWarp 5 (.ok ()) 42).balance = 5 := by
  have h := (c6_heartbeat_amended jobRunningWarp 5 (.ok ()) 42).2
    (by simp [calculateUserTimeBalanceAfterWarpLegacy, jobRunningWarp])
  exact ⟨h.1, h.2.2.2.1⟩

/-- Claim C4: for a Warp with the confirmed-terminal flag set (whose status is
terminal and whose jobId is present, the invariant every reachable confirmed
record satisfies), Sync is a pure no-op — it returns the existing record with
no persistence write, no remote call, no balance change — and any number of
repeated Syncs leave the state unchanged with an empty trace. -/
theorem c4_confirmed_sync_noop (w : Warp) (b : Int)
    (hconf : w.runpodConfirmedTerminal = true)
    (hterm : isTerminalOpt w.jobStatus = true)
    (hjob : w.jobId.isSome = true) :
    (∀ remote now, syncWarpJobStatus w b remote now =
      { result := some w, warp := w, balance := b, trace := [],
        remoteCalled := false }) ∧
    ∀ syncs : List EngineOp, (∀ op ∈ syncs, op.isSync = true) →
      runOps ⟨w, b⟩ syncs = (⟨w, b⟩, []) := by
  obtain ⟨j, hj⟩ := Option.isSome_iff_exists.mp hjob
  have hsingle : ∀ remote now, syncWarpJobStatus w b remote now =
      { result := some w, warp := w, balance := b, trace := [],
        remoteCalled := false } := by
    intro remote now
    simp [syncWarpJobStatus, hj, hterm, hconf]
  refine ⟨hsingle, ?_⟩
  intro syncs
  induction syncs with
  | nil => intro _; rfl
  | cons op ops ih =>
    intro hall
    have hop : op.isSync = true := hall op (List.mem_cons_self op ops)
    have h2 := ih (fun o ho => hall o (List.mem_cons_of_mem op ho))
    cases op with
    | sync remote now =>
      have h1 : runOp ⟨w, b⟩ (.sync remote now) = (⟨w, b⟩, []) := by
        simp [runOp, hsingle remote now]
      simp [runOps, h1, h2]
    | cancel rc now => simp [EngineOp.isSync] at hop
    | heartbeat re now => simp [EngineOp.isSync] at hop

/-- Witness for claim C4: two repeated Syncs on a confirmed terminal warp
leave state and trace untouched. -/
theorem c4_confirmed_sync_noop_witness :
    runOps ⟨confirmedTerminalWarp, 7⟩
      [.sync (.ok ⟨"COMPLETED", none, none, none⟩) 5,
       .sync (.error .notFound) 6] = (⟨confirmedTerminalWarp, 7⟩, []) :=
  (c4_confirmed_sync_noop confirmedTerminalWarp 7 rfl (by decide) rfl).2
    [.sync (.ok ⟨"COMPLETED", none, none, none⟩) 5,
     .sync (.error .notFound) 6]
    (by intro op hop; fin_cases hop <;> rfl)

/-- Claim C3 counterexample: syncing a locally CANCELLED, unconfirmed warp
(both timestamps present) while the remote also reports CANCELLED newly sets
the confirmed flag (false to true), yet performs NO balance finalization,
because the code additionally requires the reported status to differ from the
stored one. -/
theorem c3_sync_finalization_counterexample :
    cancelledUnconfirmedWarp.runpodConfirmedTerminal = false ∧
    (syncWarpJobStatus cancelledUnconfirmedWarp 90
        (.ok ⟨"CANCELLED", none, none, none⟩) 20000).warp.runpodConfirmedTerminal
      = true ∧
    (syncWarpJobStatus cancelledUnconfirmedWarp 90
        (.ok ⟨"CANCELLED", none, none, none⟩) 20000).warp.jobStartedAt
      = some 0 ∧
    (syncWarpJobStatus cancelledUnconfirmedWarp 90
        (.ok ⟨"CANCELLED", none, none, none⟩) 20000).warp.jobEndedAt
      = some 10000 ∧
    finalizationCount (syncWarpJobStatus cancelledUnconfirmedWarp 90
        (.ok ⟨"CANCELLED", none, none, none⟩) 20000).trace = 0 := by
  refine ⟨rfl, ?_, ?_, ?_, ?_⟩ <;>
    simp +decide [syncWarpJobStatus, syncApplyUpdate, computeSyncDiff,
      cancelledUnconfirmedWarp, isTerminalOpt, terminalStates,
      finalizationCount, DbWrite.isUserWrite]

/-- Claim C3 (amended): a Sync on an unconfirmed warp whose remote-reported
status is terminal AND differs from the stored status, and whose resulting
record carries both timestamps, sets the confirmed flag and finalizes the
owner's balance with the code's formula — but the status write and the
balance write are two separate atomic units (the balance finalization runs in
its own transaction immediately after the standalone status update), not one
shared transaction. -/
theorem c3_sync_finalization_amended (w : Warp) (b : Int) (r : JobStatusResult)
    (now : Int) (j : String)
    (hj : w.jobId = some j)
    (hflag : w.runpodConfirmedTerminal = false)
    (hterm : terminalStates.contains r.status = true)
    (hchanged : some r.status ≠ w.jobStatus)
    (hstart : (syncWarpJobStatus w b (.ok r) now).warp.jobStartedAt.isSome = true)
    (hend : (syncWarpJobStatus w b (.ok r) now).warp.jobEndedAt.isSome = true) :
    (syncWarpJobStatus w b (.ok r) now).warp.runpodConfirmedTerminal = true ∧
    updateUserTimeBalanceForEndedWarp b
        (syncWarpJobStatus w b (.ok r) now).warp.jobStartedAt
        (syncWarpJobStatus w b (.ok r) now).warp.jobEndedAt =
      .ok (syncWarpJobStatus w b (.ok r) now).balance ∧
    (syncWarpJobStatus w b (.ok r) now).trace =
      [[.warpWrite (syncWarpJobStatus w b (.ok r) now).warp],
       [.userWrite (syncWarpJobStatus w b (.ok r) now).balance]] := by
  have hbne : (some r.status != w.jobStatus) = true := bne_iff_ne.mpr hchanged
  have houtcome : syncWarpJobStatus w b (.ok r) now = syncApplyUpdate w b r now := by
    simp [syncWarpJobStatus, hj, hflag]
  set d := computeSyncDiff w r now with hd
  have hsc : d.statusChanged = true := by
    simp [hd, computeSyncDiff, hbne]
  have hnu : d.needsUpdate = true := by
    simp [hd, computeSyncDiff, hbne]
  have hmem : r.status ∈ terminalStates := by simpa using hterm
  have hfflag : d.finalWarp.runpodConfirmedTerminal = true := by
    simp [hd, computeSyncDiff, hbne, hmem]
  have hfstatus : d.finalWarp.jobStatus = some r.status := by
    simp [hd, computeSyncDiff, hbne]
  have hwarp : (syncApplyUpdate w b r now).warp = d.finalWarp := by
    simp only [syncApplyUpdate]
    rw [← hd]
    simp only [hnu, if_true]
    split
    · split <;> rfl
    · rfl
  rw [houtcome] at hstart hend ⊢
  rw [hwarp] at hstart hend ⊢
  obtain ⟨s, hs⟩ := Option.isSome_iff_exists.mp hstart
  obtain ⟨e, he⟩ := Option.isSome_iff_exists.mp hend
  have hcond : (d.finalWarp.runpodConfirmedTerminal &&
      isTerminalOpt d.finalWarp.jobStatus &&
      d.finalWarp.jobEndedAt.isSome && d.finalWarp.jobStartedAt.isSome &&
      d.statusChanged) = true := by
    simp [hfflag, hfstatus, isTerminalOpt, hterm, hmem, hs, he, hsc]
  have hupd : updateUserTimeBalanceForEndedWarp b d.finalWarp.jobStartedAt
      d.finalWarp.jobEndedAt =
      .ok (b - Int.floor (max 0 (((e - s : Int) : ℚ) / 1000))) := by
    rw [hs, he, updateUserTimeBalanceForEndedWarp_eq]
  have happly : syncApplyUpdate w b r now =
      { result := some d.finalWarp, warp := d.finalWarp,
        balance := b - Int.floor (max 0 (((e - s : Int) : ℚ) / 1000)),
        trace := [[.warpWrite d.finalWarp],
          [.userWrite (b - Int.floor (max 0 (((e - s : Int) : ℚ) / 1000)))]],
        remoteCalled := true } := by
    simp only [syncApplyUpdate]
    rw [← hd]
    simp only [hnu, hcond, hupd, if_true]
  rw [happly]
  exact ⟨hfflag, hupd, rfl⟩

/-- Witness for the amended claim C3: the remote reports COMPLETED for a
locally CANCELLED unconfirmed warp; the sync confirms and finalizes. -/
theorem c3_sync_finalization_amended_witness :
    (syncWarpJobStatus cancelledUnconfirmedWarp 90
        (.ok ⟨"COMPLETED", none, none, none⟩) 20000).warp.runpodConfirmedTerminal
      = true :=
  (c3_sync_finalization_amended cancelledUnconfirmedWarp 90
    ⟨"COMPLETED", none, none, none⟩ 20000 "job-1" rfl rfl (by decide)
    (by decide)
    (by simp [syncWarpJobStatus, syncApplyUpdate, computeSyncDiff,
      cancelledUnconfirmedWarp, updateUserTimeBalanceForEndedWarp,
      isTerminalOpt, terminalStates])
    (by simp [syncWarpJobStatus, syncApplyUpdate, computeSyncDiff,
      cancelledUnconfirmedWarp, updateUserTimeBalanceForEndedWarp,
      isTerminalOpt, terminalStates])).1

/-- The post-update row's job status is either the remote-reported status or
the stored one. -/
lemma computeSyncDiff_jobStatus (w : Warp) (r : JobStatusResult) (now : Int) :
    (computeSyncDiff w r now).finalWarp.jobStatus = some r.status ∨
    (computeSyncDiff w r now).finalWarp.jobStatus = w.jobStatus := by
  simp only [computeSyncDiff]
  split
  next st heq =>
    repeat' split at heq
    all_goals simp_all
  next heq => exact Or.inr rfl

/-- The sync update diff preserves the confirmed-implies-terminal invariant
when the stored flag is still false: whenever the updated row has the flag
set, its status is terminal. -/
lemma computeSyncDiff_inv (w : Warp) (r : JobStatusResult) (now : Int)
    (hflag : w.runpodConfirmedTerminal = false) :
    ConfirmedImpliesTerminal (computeSyncDiff w r now).finalWarp := by
  intro hc
  by_cases hct : terminalStates.contains r.status = true
  · have hmem : r.status ∈ terminalStates := by simpa using hct
    by_cases hsc : (some r.status != w.jobStatus) = true
    · have : (computeSyncDiff w r now).finalWarp.jobStatus = some r.status := by
        simp [computeSyncDiff, hsc]
      rw [this]
      simpa [isTerminalOpt] using hct
    · have hbf : (some r.status != w.jobStatus) = false := by
        simpa using hsc
      have heq : some r.status = w.jobStatus := by
        simpa using hbf
      rcases computeSyncDiff_jobStatus w r now with hst | hst <;> rw [hst]
      · simpa [isTerminalOpt] using hct
      · rw [← heq]
        simpa [isTerminalOpt] using hct
  · have hmemf : r.status ∉ terminalStates := by
      simpa using hct
    simp [computeSyncDiff, hmemf, hflag] at hc

/-- Cancel preserves the confirmed-implies-terminal invariant in all its
branches. -/
lemma cancel_preserves_inv (w : Warp) (b : Int) (rc : Except String Unit)
    (now : Int) (h : ConfirmedImpliesTerminal w) :
    ConfirmedImpliesTerminal (cancelWarpAndUpdateUserTimeBalance w b rc now).warp := by
  unfold cancelWarpAndUpdateUserTimeBalance
  cases hjj : w.jobId with
  | none =>
    intro hc
    simp [isTerminalOpt, terminalStates]
  | some j =>
    cases hterm2 : isTerminalOpt w.jobStatus with
    | true => simpa using h
    | false =>
      cases rc with
      | error m => simpa using h
      | ok u =>
        cases u
        cases hws : w.jobStartedAt with
        | none =>
          intro hc
          simp [isTerminalOpt, terminalStates]
        | some s =>
          intro hc
          simp [updateUserTimeBalanceForEndedWarp, isTerminalOpt,
            terminalStates]

/-- Heartbeat preserves the confirmed-implies-terminal invariant: it never
touches the serverless status or the confirmed flag. -/
lemma heartbeat_preserves_inv (w : Warp) (b : Int) (re : Except String Unit)
    (now : Int) (h : ConfirmedImpliesTerminal w) :
    ConfirmedImpliesTerminal (heartbeat w b re now).warp := by
  unfold heartbeat
  by_cases hlt : calculateUserTimeBalanceAfterWarpLegacy b w.podReadyAt
      w.podEndedAt now < 0
  · cases re with
    | ok u =>
      cases u
      simpa [ConfirmedImpliesTerminal, endWarpAndUpdateUserTimeBalance, hlt]
        using h
    | error m =>
      simpa [ConfirmedImpliesTerminal, endWarpAndUpdateUserTimeBalance, hlt]
        using h
  · simpa [ConfirmedImpliesTerminal, hlt] using h

/-- The row persisted by the success path is either the diffed row or the
unchanged input row. -/
lemma syncApplyUpdate_warp (w : Warp) (b : Int) (r : JobStatusResult)
    (now : Int) :
    (syncApplyUpdate w b r now).warp = (computeSyncDiff w r now).finalWarp ∨
    (syncApplyUpdate w b r now).warp = w := by
  simp only [syncApplyUpdate]
  split
  · split
    · split
      · exact Or.inl rfl
      · exact Or.inl rfl
    · exact Or.inl rfl
  · exact Or.inr rfl

/-- Case analysis of the row held after a Sync: unchanged, diffed by the
success path (when the skip guard did not fire), or flag-confirmed by the
not-found path (which requires a locally terminal status). -/
lemma syncWarpJobStatus_warp_cases (w : Warp) (b : Int)
    (remote : Except RemoteErr JobStatusResult) (now : Int) :
    (syncWarpJobStatus w b remote now).warp = w ∨
    (∃ r, remote = .ok r ∧
      (syncWarpJobStatus w b remote now).warp =
        (computeSyncDiff w r now).finalWarp ∧
      (isTerminalOpt w.jobStatus && w.runpodConfirmedTerminal) = false) ∨
    ((syncWarpJobStatus w b remote now).warp =
        { w with runpodConfirmedTerminal := true, updatedAt := now } ∧
      isTerminalOpt w.jobStatus = true) := by
  unfold syncWarpJobStatus
  cases hjj : w.jobId with
  | none => exact Or.inl rfl
  | some j =>
    cases hsk : (isTerminalOpt w.jobStatus && w.runpodConfirmedTerminal) with
    | true => exact Or.inl rfl
    | false =>
      cases remote with
      | error e =>
        cases hnf : (e.isNotFound && isTerminalOpt w.jobStatus) with
        | true =>
          refine Or.inr (Or.inr ⟨?_, ?_⟩)
          · simp [hnf]
          · have hand := hnf
            simp only [Bool.and_eq_true] at hand
            exact hand.2
        | false =>
          refine Or.inl ?_
          simp [hnf]
      | ok r =>
        rcases syncApplyUpdate_warp w b r now with hw | hw
        · exact Or.inr (Or.inl ⟨r, rfl, hw, rfl⟩)
        · exact Or.inl hw

/-- Sync preserves the confirmed-implies-terminal invariant in all its
branches, including the not-found confirmation path. -/
lemma sync_preserves_inv (w : Warp) (b : Int)
    (remote : Except RemoteErr JobStatusResult) (now : Int)
    (h : ConfirmedImpliesTerminal w) :
    ConfirmedImpliesTerminal (syncWarpJobStatus w b remote now).warp := by
  rcases syncWarpJobStatus_warp_cases w b remote now with
    hw | ⟨r, _, hw, hsk⟩ | ⟨hw, hterm2⟩
  · rw [hw]; exact h
  · rw [hw]
    cases hwf : w.runpodConfirmedTerminal with
    | true =>
      exfalso
      have hterm3 := h hwf
      rw [hterm3, hwf] at hsk
      simp at hsk
    | false => exact computeSyncDiff_inv w r now hwf
  · rw [hw]
    intro _
    exact hterm2

/-- Claim C10: every engine operation — Sync (including its not-found
confirmation path), Cancel (all branches) and Heartbeat — preserves the
invariant that a Warp with `runpodConfirmedTerminal = true` has a terminal
`jobStatus`; no operation sets the confirmed flag while leaving an active
status. -/
theorem c10_confirmed_implies_terminal_invariant (s : EngineState)
    (op : EngineOp) (h : ConfirmedImpliesTerminal s.warp) :
    ConfirmedImpliesTerminal (runOp s op).1.warp := by
  cases op with
  | sync remote now => exact sync_preserves_inv s.warp s.balance remote now h
  | cancel rc now => exact cancel_preserves_inv s.warp s.balance rc now h
  | heartbeat re now => exact heartbeat_preserves_inv s.warp s.balance re now h

/-- Witness for claim C10: cancelling a running unconfirmed warp keeps the
invariant. -/
theorem c10_confirmed_implies_terminal_invariant_witness :
    ConfirmedImpliesTerminal
      (runOp ⟨jobRunningWarp, 100⟩ (.cancel (.ok ()) 10000)).1.warp :=
  c10_confirmed_implies_terminal_invariant ⟨jobRunningWarp, 100⟩
    (.cancel (.ok ()) 10000)
    (fun hc => absurd hc (by simp [jobRunningWarp]))

/-- Claim C1 fails on the code: after Cancel finalizes a started warp
(balance 100 -> 90 for 10 billed seconds, leaving status CANCELLED
unconfirmed), a later Sync in which the remote reports a DIFFERENT terminal
status (COMPLETED) passes the `status changed` guard and finalizes AGAIN:
the sequence produces two balance-finalizing writes and a final balance of
80, deducting the same 10 seconds twice. -/
theorem c1_double_finalization_failing_run :
    finalizationCount (runOps ⟨jobRunningWarp, 100⟩
      [.cancel (.ok ()) 10000,
       .sync (.ok ⟨"COMPLETED", none, none, none⟩) 20000]).2 = 2 ∧
    (runOps ⟨jobRunningWarp, 100⟩
      [.cancel (.ok ()) 10000,
       .sync (.ok ⟨"COMPLETED", none, none, none⟩) 20000]).1.balance = 80 := by
  have hfloor : Int.floor (max (0 : ℚ) (((10000 - 0 : Int) : ℚ) / 1000)) = 10 := by
    apply floor_eval <;> norm_num [max_def]
  have hb1 : updateUserTimeBalanceForEndedWarp 100 (some 0) (some 10000) =
      .ok 90 := by
    rw [updateUserTimeBalanceForEndedWarp_eq, hfloor]
    norm_num
  have hb2 : updateUserTimeBalanceForEndedWarp 90 (some 0) (some 10000) =
      .ok 80 := by
    rw [updateUserTimeBalanceForEndedWarp_eq, hfloor]
    norm_num
  constructor <;>
    simp +decide [runOps, runOp, cancelWarpAndUpdateUserTimeBalance,
      syncWarpJobStatus, syncApplyUpdate, computeSyncDiff, jobRunningWarp,
      isTerminalOpt, terminalStates, hb1, hb2, finalizationCount,
      DbWrite.isUserWrite]

end GendjApi
